import Mathlib

/-!
Verification of the `fastapi-response-boost` repository: a FastAPI endpoint
returning user records (`src/app.py`), wrapped by a generic response-caching
decorator (`src/decorator.py`) backed by a Redis key-value store accessed
through `cache.get` / `cache.set`.

The embedding below models:
* the JSON values this application serializes (flat objects/arrays whose
  members are null, booleans, integers and strings — the shape of the
  `users_db` records and of everything the wrapped handler returns),
  together with `json.dumps` / `json.loads` on that subset;
* the decorator's `wrapper` as a pure function of the outcomes of the two
  store operations performed in one invocation, returning the delivered
  result together with an effect trace (how often the handler ran and which
  `store.set` calls were issued);
* the endpoint `get_user_details` and the `users_db` table.

Store behaviour (Redis) and the HTTP framework are external collaborators;
they enter only through the outcome parameters and, for the response
mapping, a definition modelled from the spec.
-/

namespace ResponseBoost

/-- Equality of `Except` values is decidable when it is on both
components. -/
instance instDecEqExcept {ε α : Type _} [DecidableEq ε] [DecidableEq α] :
    DecidableEq (Except ε α)
  | .ok a, .ok b =>
    if h : a = b then .isTrue (by rw [h])
    else .isFalse (by intro he; cases he; exact h rfl)
  | .ok _, .error _ => .isFalse (by intro h; cases h)
  | .error _, .ok _ => .isFalse (by intro h; cases h)
  | .error e, .error f =>
    if h : e = f then .isTrue (by rw [h])
    else .isFalse (by intro he; cases he; exact h rfl)

/-- The opening brace character (in serialized JSON objects). -/
def lbrace : Char := Char.ofNat 123

/-- The closing brace character (in serialized JSON objects). -/
def rbrace : Char := Char.ofNat 125

/-- Atomic JSON values: `null`, booleans, (arbitrary-precision) integers and
strings, as Python's `json` module produces for the records of this
application. -/
inductive JAtom where
  | null
  | bool (b : Bool)
  | int (n : Int)
  | str (s : String)
deriving Repr, DecidableEq

/-- JSON values in the shape this application stores and retrieves: an atom,
an array of atoms, or an object mapping string keys to atoms (the `users_db`
records are flat objects of integers and strings). -/
inductive Json where
  | atom (a : JAtom)
  | arr (xs : List JAtom)
  | obj (kvs : List (String × JAtom))
deriving Repr, DecidableEq

/-- Hexadecimal digit character (lowercase), as Python's `json.dumps` emits
in unicode escapes. -/
def hexDigit (n : Nat) : Char :=
  if n < 10 then Char.ofNat (48 + n) else Char.ofNat (87 + n)

/-- Unicode escape (backslash-u-XXXX) for a single UTF-16 code unit
`n < 0x10000`. -/
def uescape16 (n : Nat) : List Char :=
  ['\\', 'u', hexDigit (n / 4096 % 16), hexDigit (n / 256 % 16),
   hexDigit (n / 16 % 16), hexDigit (n % 16)]

/-- Escape one character the way Python's `json.dumps` (with its default
`ensure_ascii=True`) does: short escapes for the quote, the backslash and
the common control characters, `u00xx` escapes for the remaining control
characters, `uxxxx` escapes (with surrogate pairs beyond the BMP) for
non-ASCII, everything else verbatim. -/
def escapeChar (c : Char) : List Char :=
  if c = '"' then ['\\', '"']
  else if c = '\\' then ['\\', '\\']
  else if c = '\n' then ['\\', 'n']
  else if c = '\t' then ['\\', 't']
  else if c = '\r' then ['\\', 'r']
  else if c.toNat = 8 then ['\\', 'b']
  else if c.toNat = 12 then ['\\', 'f']
  else if c.toNat < 0x20 then uescape16 c.toNat
  else if c.toNat ≤ 0x7e then [c]
  else if c.toNat < 0x10000 then uescape16 c.toNat
  else
    uescape16 (0xd800 + (c.toNat - 0x10000) / 0x400) ++
      uescape16 (0xdc00 + (c.toNat - 0x10000) % 0x400)

/-- Serialized form of a JSON string: quotes around the escaped characters. -/
def dumpStr (s : String) : List Char :=
  '"' :: (s.data.map escapeChar).flatten ++ ['"']

/-- Serialized form of an atom. -/
def dumpAtom : JAtom → List Char
  | .null => "null".data
  | .bool true => "true".data
  | .bool false => "false".data
  | .int n => (toString n).data
  | .str s => dumpStr s

/-- Comma-separated serialized items, with Python's default item separator
(comma and space). -/
def dumpItems (f : α → List Char) : List α → List Char
  | [] => []
  | x :: xs => f x ++ (xs.map (fun y => ',' :: ' ' :: f y)).flatten

/-- Serialized key/value pair, with Python's default key separator (colon
and space). -/
def dumpPair (p : String × JAtom) : List Char :=
  dumpStr p.1 ++ ':' :: ' ' :: dumpAtom p.2

/-- Modelled from the spec: values are "serialized as JSON text" by
`json.dumps` with its default options; this is its output on the JSON subset
this application produces. -/
def jsonDumps : Json → String
  | .atom a => String.mk (dumpAtom a)
  | .arr xs => String.mk ('[' :: dumpItems dumpAtom xs ++ [']'])
  | .obj kvs => String.mk (lbrace :: dumpItems dumpPair kvs ++ [rbrace])

/-- JSON insignificant whitespace, as accepted between tokens by
`json.loads`. -/
def isJsonWs (c : Char) : Bool :=
  c = ' ' ∨ c = '\t' ∨ c = '\n' ∨ c = '\r'

/-- Drop leading JSON whitespace. -/
def skipWs : List Char → List Char
  | [] => []
  | c :: cs => if isJsonWs c then skipWs cs else c :: cs

/-- Value of a hexadecimal digit character, if it is one. -/
def hexVal (c : Char) : Option Nat :=
  if '0' ≤ c ∧ c ≤ '9' then some (c.toNat - 48)
  else if 'a' ≤ c ∧ c ≤ 'f' then some (c.toNat - 87)
  else if 'A' ≤ c ∧ c ≤ 'F' then some (c.toNat - 55)
  else none

/-- Read four hexadecimal digits (the XXXX of a unicode escape). -/
def readHex4 : List Char → Option (Nat × List Char)
  | a :: b :: c :: d :: rest =>
    match hexVal a, hexVal b, hexVal c, hexVal d with
    | some x, some y, some z, some w => some (((x * 16 + y) * 16 + z) * 16 + w, rest)
    | _, _, _, _ => none
  | _ => none

/-- Parse the body of a JSON string (everything after the opening quote, up
to and including the closing quote), decoding the escapes `json.loads`
accepts; `fuel` bounds the recursion by the input length.  Lone surrogate
escapes are rejected (they denote no Unicode scalar value). -/
def parseStrBody : Nat → List Char → Option (List Char × List Char)
  | 0, _ => none
  | _, [] => none
  | fuel + 1, c :: cs =>
    if c = '"' then some ([], cs)
    else if c = '\\' then
      match cs with
      | [] => none
      | e :: cs' =>
        if e = '"' ∨ e = '\\' ∨ e = '/' then
          (parseStrBody fuel cs').map (fun r => (e :: r.1, r.2))
        else if e = 'n' then (parseStrBody fuel cs').map (fun r => ('\n' :: r.1, r.2))
        else if e = 't' then (parseStrBody fuel cs').map (fun r => ('\t' :: r.1, r.2))
        else if e = 'r' then (parseStrBody fuel cs').map (fun r => ('\r' :: r.1, r.2))
        else if e = 'b' then (parseStrBody fuel cs').map (fun r => (Char.ofNat 8 :: r.1, r.2))
        else if e = 'f' then (parseStrBody fuel cs').map (fun r => (Char.ofNat 12 :: r.1, r.2))
        else if e = 'u' then
          match readHex4 cs' with
          | none => none
          | some (n, rest) =>
            if 0xd800 ≤ n ∧ n ≤ 0xdbff then
              match rest with
              | '\\' :: 'u' :: rest' =>
                match readHex4 rest' with
                | some (m, rest2) =>
                  if 0xdc00 ≤ m ∧ m ≤ 0xdfff then
                    (parseStrBody fuel rest2).map
                      (fun r => (Char.ofNat (0x10000 + (n - 0xd800) * 0x400 + (m - 0xdc00)) :: r.1, r.2))
                  else none
                | none => none
              | _ => none
            else if 0xdc00 ≤ n ∧ n ≤ 0xdfff then none
            else (parseStrBody fuel rest).map (fun r => (Char.ofNat n :: r.1, r.2))
        else none
    else if c.toNat < 0x20 then none
    else (parseStrBody fuel cs).map (fun r => (c :: r.1, r.2))

/-- Digit run of a JSON integer. -/
def takeDigits : List Char → List Char × List Char
  | [] => ([], [])
  | c :: cs =>
    if c.isDigit then
      let r := takeDigits cs
      (c :: r.1, r.2)
    else ([], c :: cs)

/-- Numeric value of a digit run. -/
def digitsToNat (ds : List Char) : Nat :=
  ds.foldl (fun acc c => acc * 10 + (c.toNat - 48)) 0

/-- Parse a JSON integer literal: optional minus sign, then zero or a digit
run without a leading zero, as JSON's grammar requires. -/
def parseIntLit (input : List Char) : Option (Int × List Char) :=
  let core : List Char → Option (Nat × List Char) := fun cs =>
    match takeDigits cs with
    | ([], _) => none
    | ('0' :: _ :: _, _) => none
    | (ds, rest) => some (digitsToNat ds, rest)
  match input with
  | '-' :: cs => (core cs).map (fun r => (-(r.1 : Int), r.2))
  | cs => (core cs).map (fun r => ((r.1 : Int), r.2))

/-- Parse one atomic JSON value (no leading whitespace). -/
def parseAtom (fuel : Nat) (input : List Char) : Option (JAtom × List Char) :=
  match input with
  | 'n' :: 'u' :: 'l' :: 'l' :: rest => some (.null, rest)
  | 't' :: 'r' :: 'u' :: 'e' :: rest => some (.bool true, rest)
  | 'f' :: 'a' :: 'l' :: 's' :: 'e' :: rest => some (.bool false, rest)
  | '"' :: rest => (parseStrBody fuel rest).map (fun r => (.str (String.mk r.1), r.2))
  | cs => (parseIntLit cs).map (fun r => (.int r.1, r.2))

/-- Parse the items of a flat JSON array, after the opening bracket. -/
def parseArrItems (fuel : Nat) (input : List Char) (first : Bool)
    (acc : List JAtom) : Option (List JAtom × List Char) :=
  match fuel with
  | 0 => none
  | fuel + 1 =>
    match skipWs input with
    | ']' :: rest => if first then some (acc.reverse, rest) else none
    | cs =>
      match parseAtom fuel cs with
      | none => none
      | some (a, rest) =>
        match skipWs rest with
        | ',' :: rest' => parseArrItems fuel rest' false (a :: acc)
        | ']' :: rest' => some ((a :: acc).reverse, rest')
        | _ => none

/-- Parse the members of a flat JSON object, after the opening brace. -/
def parseObjItems (fuel : Nat) (input : List Char) (first : Bool)
    (acc : List (String × JAtom)) : Option (List (String × JAtom) × List Char) :=
  match fuel with
  | 0 => none
  | fuel + 1 =>
    match skipWs input with
    | [] => none
    | c :: cs =>
      if c = rbrace then (if first then some (acc.reverse, cs) else none)
      else if c = '"' then
        match parseStrBody fuel cs with
        | none => none
        | some (k, rest) =>
          match skipWs rest with
          | ':' :: rest' =>
            match parseAtom fuel (skipWs rest') with
            | none => none
            | some (v, rest2) =>
              match skipWs rest2 with
              | ',' :: rest3 => parseObjItems fuel rest3 false ((String.mk k, v) :: acc)
              | d :: rest3 =>
                if d = rbrace then some (((String.mk k, v) :: acc).reverse, rest3)
                else none
              | [] => none
          | _ => none
      else none

/-- Parse one JSON value of the application's subset (no leading
whitespace). -/
def parseVal (fuel : Nat) (input : List Char) : Option (Json × List Char) :=
  match input with
  | [] => none
  | c :: cs =>
    if c = '[' then (parseArrItems fuel cs true []).map (fun r => (.arr r.1, r.2))
    else if c = lbrace then (parseObjItems fuel cs true []).map (fun r => (.obj r.1, r.2))
    else (parseAtom fuel (c :: cs)).map (fun r => (.atom r.1, r.2))

/-- Modelled from the spec: `json.loads` on the JSON subset this application
stores — the whole input must be one value surrounded by optional
whitespace. -/
def jsonLoads (s : String) : Option Json :=
  match parseVal (s.length + 1) (skipWs s.data) with
  | some (j, rest) => if skipWs rest = [] then some j else none
  | none => none

/-! ## The decorator (`src/decorator.py`) -/

/-- Errors that can escape one invocation of the wrapped function:
an `HTTPException(status_code, detail)`, an arbitrary exception raised by a
store operation (carrying its message `str(e)`), the `IndexError` of
`args[0]` on an empty argument tuple, the decode error of `json.loads` on a
non-JSON cached value, and the `TypeError` of calling the handler with an
argument shape its signature rejects. -/
inductive PyErr where
  | httpExc (status : Nat) (detail : String)
  | storeError (msg : String)
  | indexError
  | jsonDecodeError
  | typeError
deriving Repr, DecidableEq

/-- Outcomes of the (at most one) `cache.get` and (at most one) `cache.set`
the wrapper performs during one invocation.  `get` yields `none` for a
missing key, `some s` for a stored value; an `error` is an exception raised
by the store call, carrying its message. -/
structure StoreBehavior where
  getResult : Except String (Option String)
  setResult : Except String Unit

/-- What one invocation of the wrapped function did: the value delivered to
the caller (or the exception raised), how many times the underlying handler
ran, and the `store.set` calls issued as `(key, value, ttl)` triples. -/
structure RunResult where
  result : Except PyErr Json
  handlerCalls : Nat
  setCalls : List (String × String × Nat)
deriving Repr, DecidableEq

/-- `args[0]`: the first positional argument, or an `IndexError` when there
is none. -/
def firstArg : List Int → Except PyErr Int
  | [] => .error .indexError
  | a :: _ => .ok a

/-- `user_id = kwargs.get('user_id') or args[0]` — Python's `or` takes the
keyword argument when it is present and truthy (a nonzero integer here) and
otherwise evaluates `args[0]`. -/
def extract_user_id (kwargs_user_id : Option Int) (args : List Int) : Except PyErr Int :=
  match kwargs_user_id with
  | some v => if v = 0 then firstArg args else .ok v
  | none => firstArg args

/-- `cache_key = f"[namespace]:user:[user_id]"` (an f-string interpolating
the namespace and the stringified identifying argument). -/
def cache_key (ns : String) (user_id : Int) : String :=
  ns ++ ":user:" ++ toString user_id

/-- Truthiness of the value returned by `cache.get`: `None` and the empty
string are falsy, any other stored value is truthy. -/
def cachedTruthy : Option String → Bool
  | none => false
  | some s => s ≠ ""

/-- One invocation of the decorator's `wrapper(*args, **kwargs)`
(src/decorator.py, the function produced by `cache_response(ttl, ns)`
around `func`), as a pure function of the store outcomes:

1. `user_id = kwargs.get('user_id') or args[0]`
2. `cache_key = f"[ns]:user:[user_id]"`
3. `cached_value = await cache.get(cache_key)`; a raised exception
   propagates (it is not caught anywhere in the wrapper);
4. `if cached_value: return json.loads(cached_value)`
5. `response = await func(*args, **kwargs)`; a raised exception propagates;
6. `await cache.set(cache_key, json.dumps(response), ttl=ttl)`; on any
   exception `e`, `raise HTTPException(500, f"Error caching data: [e]")`
7. `return response`. -/
def wrapper (ttl : Nat) (ns : String) (func : List Int → Option Int → Except PyErr Json)
    (store : StoreBehavior) (args : List Int) (kwargs_user_id : Option Int) : RunResult :=
  match extract_user_id kwargs_user_id args with
  | .error e => ⟨.error e, 0, []⟩
  | .ok user_id =>
    let key := cache_key ns user_id
    match store.getResult with
    | .error m => ⟨.error (.storeError m), 0, []⟩
    | .ok cached =>
      if cachedTruthy cached then
        match jsonLoads (cached.getD "") with
        | some j => ⟨.ok j, 0, []⟩
        | none => ⟨.error .jsonDecodeError, 0, []⟩
      else
        match func args kwargs_user_id with
        | .error e => ⟨.error e, 1, []⟩
        | .ok response =>
          match store.setResult with
          | .error m =>
            ⟨.error (.httpExc 500 ("Error caching data: " ++ m)), 1,
              [(key, jsonDumps response, ttl)]⟩
          | .ok _ => ⟨.ok response, 1, [(key, jsonDumps response, ttl)]⟩

/-! ## The application (`src/app.py`) -/

/-- The record for user 1. -/
def user1 : Json :=
  .obj [("id", .int 1), ("name", .str "Manas"), ("email", .str "manas@example.com"),
        ("age", .int 25)]

/-- The record for user 2. -/
def user2 : Json :=
  .obj [("id", .int 2), ("name", .str "omkar"), ("email", .str "omkar@example.com"),
        ("age", .int 29)]

/-- The record for user 3. -/
def user3 : Json :=
  .obj [("id", .int 3), ("name", .str "anand"), ("email", .str "anand@example.com"),
        ("age", .int 27)]

/-- `users_db.get(user_id)`: the three-entry sample dictionary of
src/app.py, keyed by integer user id. -/
def users_db (user_id : Int) : Option Json :=
  if user_id = 1 then some user1
  else if user_id = 2 then some user2
  else if user_id = 3 then some user3
  else none

/-- Python truthiness of a JSON value (`None`, `False`, `0`, empty strings
and empty containers are falsy). -/
def pyTruthy : Json → Bool
  | .atom .null => false
  | .atom (.bool b) => b
  | .atom (.int n) => n ≠ 0
  | .atom (.str s) => s ≠ ""
  | .arr xs => !xs.isEmpty
  | .obj kvs => !kvs.isEmpty

/-- The endpoint body `get_user_details(user_id)` of src/app.py:
`user = users_db.get(user_id); if not user: raise HTTPException(404,
"User not found"); return user`. -/
def get_user_details (user_id : Int) : Except PyErr Json :=
  match users_db user_id with
  | none => .error (.httpExc 404 "User not found")
  | some user => if pyTruthy user then .ok user else .error (.httpExc 404 "User not found")

/-- `get_user_details` invoked as Python's `func(*args, **kwargs)` does:
its signature `(user_id: int)` accepts exactly one argument, positional or
keyword; any other shape raises a `TypeError`. -/
def call_get_user_details : List Int → Option Int → Except PyErr Json
  | [], some v => get_user_details v
  | [a], none => get_user_details a
  | _, _ => .error .typeError

/-- Modelled from the spec: the HTTP framework (an external collaborator)
maps a handler outcome to a response — 200 with the returned body on
success, the exception's status and a `detail` body for an
`HTTPException`, and an unclassified 500 for any other exception. -/
def httpResponse : Except PyErr Json → Nat × Json
  | .ok j => (200, j)
  | .error (.httpExc status detail) => (status, .obj [("detail", .str detail)])
  | .error _ => (500, .obj [("detail", .str "Internal Server Error")])

/-- A store in its initial state for the requested key: the read misses and
the write succeeds. -/
def coldStore : StoreBehavior := ⟨.ok none, .ok ()⟩

/-- `GET /users/[user_id]` as src/app.py wires it: the framework passes the
path parameter as the keyword argument `user_id` to the wrapped
`get_user_details`, with `ttl=120, namespace="users"`. -/
def http_get_users (store : StoreBehavior) (user_id : Int) : Nat × Json :=
  httpResponse (wrapper 120 "users" call_get_user_details store [] (some user_id)).result

/-- A handler wrapped by `cache_response`: its behaviour together with the
namespace the decorator was configured with.  The decorator derives cache
keys from the namespace and the identifying argument only. -/
structure WrappedEndpoint where
  handler : List Int → Option Int → Except PyErr Json
  ns : String

/-- The cache key a wrapped endpoint computes for an identifying
argument. -/
def endpoint_cache_key (e : WrappedEndpoint) (user_id : Int) : String :=
  cache_key e.ns user_id

/-- Handler used to exhibit a second, behaviourally different endpoint
wrapped with the same namespace. -/
def other_endpoint_handler : List Int → Option Int → Except PyErr Json :=
  fun _ _ => .ok (.atom .null)

/-- The `users` endpoint of src/app.py as a wrapped endpoint. -/
def usersEndpoint : WrappedEndpoint := ⟨call_get_user_details, "users"⟩

/-- A different handler wrapped with the same namespace `"users"`. -/
def otherEndpoint : WrappedEndpoint := ⟨other_endpoint_handler, "users"⟩

end ResponseBoost

namespace ResponseBoost

/-- C1: whenever `store.get(cache_key)` yields a present, non-empty value,
the wrapper does not invoke the underlying handler (and writes nothing),
and it returns the JSON-deserialization of the cached value. -/
theorem C1_cache_hit_skips_handler (ttl : Nat) (ns : String)
    (func : List Int → Option Int → Except PyErr Json) (store : StoreBehavior)
    (args : List Int) (kw : Option Int) (uid : Int) (s : String)
    (hx : extract_user_id kw args = .ok uid)
    (hget : store.getResult = .ok (some s)) (hne : s ≠ "") :
    (wrapper ttl ns func store args kw).handlerCalls = 0 ∧
    (wrapper ttl ns func store args kw).setCalls = [] ∧
    ∀ j, jsonLoads s = some j → (wrapper ttl ns func store args kw).result = .ok j := by
  have hb : cachedTruthy (some s) = true := by simp [cachedTruthy, hne]
  simp only [wrapper, hx, hget, hb, if_true, Option.getD]
  refine ⟨?_, ?_, ?_⟩
  · cases hl : jsonLoads s <;> simp [hl]
  · cases hl : jsonLoads s <;> simp [hl]
  · intro j hj
    simp [hj]

/-- Witness for C1 at a concrete input: key `main:user:1` holds `"7"`, the
wrapper returns the integer 7 without running the handler. -/
theorem C1_witness :
    (wrapper 60 "main" (fun _ _ => .ok (.atom .null)) ⟨.ok (some "7"), .ok ()⟩ []
        (some 1)).handlerCalls = 0 ∧
    (wrapper 60 "main" (fun _ _ => .ok (.atom .null)) ⟨.ok (some "7"), .ok ()⟩ []
        (some 1)).setCalls = [] ∧
    (wrapper 60 "main" (fun _ _ => .ok (.atom .null)) ⟨.ok (some "7"), .ok ()⟩ []
        (some 1)).result = .ok (.atom (.int 7)) := by
  have h := C1_cache_hit_skips_handler 60 "main" (fun _ _ => .ok (.atom .null))
    ⟨.ok (some "7"), .ok ()⟩ [] (some 1) 1 "7" (by decide) rfl (by decide)
  exact ⟨h.1, h.2.1, h.2.2 (.atom (.int 7)) (by decide)⟩

/-- C2: on a cache miss (absent or empty read) with a succeeding handler
and a succeeding write, the wrapper runs the handler exactly once, issues
exactly one `store.set` with key `ns ++ ":user:" ++ toString user_id`,
value `json.dumps(response)` and the configured ttl, and returns the
handler's result unchanged. -/
theorem C2_cache_miss_invokes_once_and_caches (ttl : Nat) (ns : String)
    (func : List Int → Option Int → Except PyErr Json) (store : StoreBehavior)
    (args : List Int) (kw : Option Int) (uid : Int) (response : Json)
    (hx : extract_user_id kw args = .ok uid)
    (hget : store.getResult = .ok none ∨ store.getResult = .ok (some ""))
    (hfunc : func args kw = .ok response)
    (hset : store.setResult = .ok ()) :
    wrapper ttl ns func store args kw =
      ⟨.ok response, 1, [(ns ++ ":user:" ++ toString uid, jsonDumps response, ttl)]⟩ := by
  rcases hget with hget | hget <;>
    simp [wrapper, hx, hget, cachedTruthy, hfunc, hset, cache_key]

/-- Witness for C2 at a concrete input: a cold cache on `GET /users/1`
yields one handler call, one write of the serialized record under
`users:user:1` with ttl 120, and the record as result. -/
theorem C2_witness :
    wrapper 120 "users" call_get_user_details coldStore [] (some 1) =
      ⟨.ok user1, 1, [("users" ++ ":user:" ++ toString (1 : Int), jsonDumps user1, 120)]⟩ :=
  C2_cache_miss_invokes_once_and_caches 120 "users" call_get_user_details coldStore []
    (some 1) 1 user1 (by decide) (Or.inl rfl) (by decide) rfl

/-- C4: on a cache miss where the handler succeeds but `store.set` raises,
the wrapper raises `HTTPException(500, "Error caching data: <cause>")`
carrying the underlying exception's message, and does not return the
already-computed handler result. -/
theorem C4_set_failure_raises_500 (ttl : Nat) (ns : String)
    (func : List Int → Option Int → Except PyErr Json) (store : StoreBehavior)
    (args : List Int) (kw : Option Int) (uid : Int) (response : Json) (m : String)
    (hx : extract_user_id kw args = .ok uid)
    (hget : store.getResult = .ok none ∨ store.getResult = .ok (some ""))
    (hfunc : func args kw = .ok response)
    (hset : store.setResult = .error m) :
    (wrapper ttl ns func store args kw).result =
      .error (.httpExc 500 ("Error caching data: " ++ m)) ∧
    (wrapper ttl ns func store args kw).result ≠ .ok response := by
  rcases hget with hget | hget <;>
    simp [wrapper, hx, hget, cachedTruthy, hfunc, hset]

/-- Witness for C4 at a concrete input: with a write that raises `"boom"`,
`GET /users/1` on a cold cache surfaces
`HTTPException(500, "Error caching data: boom")` instead of the record. -/
theorem C4_witness :
    (wrapper 120 "users" call_get_user_details ⟨.ok none, .error "boom"⟩ []
        (some 1)).result = .error (.httpExc 500 ("Error caching data: " ++ "boom")) ∧
    (wrapper 120 "users" call_get_user_details ⟨.ok none, .error "boom"⟩ []
        (some 1)).result ≠ .ok user1 :=
  C4_set_failure_raises_500 120 "users" call_get_user_details ⟨.ok none, .error "boom"⟩
    [] (some 1) 1 user1 "boom" (by decide) (Or.inl rfl) (by decide) rfl

/-- C8: when `store.get` raises, the wrapper catches nothing: the handler
never runs, nothing is written, and the read failure propagates unchanged —
in particular it is not re-labelled as an `HTTPException` caching error. -/
theorem C8_read_error_propagates (ttl : Nat) (ns : String)
    (func : List Int → Option Int → Except PyErr Json) (store : StoreBehavior)
    (args : List Int) (kw : Option Int) (uid : Int) (m : String)
    (hx : extract_user_id kw args = .ok uid)
    (hget : store.getResult = .error m) :
    wrapper ttl ns func store args kw = ⟨.error (.storeError m), 0, []⟩ ∧
    ∀ status detail, (wrapper ttl ns func store args kw).result ≠
      .error (.httpExc status detail) := by
  have hw : wrapper ttl ns func store args kw = ⟨.error (.storeError m), 0, []⟩ := by
    simp [wrapper, hx, hget]
  exact ⟨hw, by intro status detail; rw [hw]; simp⟩

/-- Witness for C8 at a concrete input: a read raising `"conn refused"`
propagates as that very store error. -/
theorem C8_witness :
    wrapper 120 "users" call_get_user_details ⟨.error "conn refused", .ok ()⟩ []
        (some 1) = ⟨.error (.storeError "conn refused"), 0, []⟩ :=
  (C8_read_error_propagates 120 "users" call_get_user_details
    ⟨.error "conn refused", .ok ()⟩ [] (some 1) 1 "conn refused" (by decide) rfl).1

/-- C10: a present-but-falsy keyword argument `user_id = 0` is ignored in
favour of the first positional argument; with no positional argument the
invocation fails with an `IndexError` (before any store traffic or handler
call) rather than producing a result. -/
theorem C10_falsy_kwarg_ignored (a : Int) (rest : List Int) (ttl : Nat) (ns : String)
    (func : List Int → Option Int → Except PyErr Json) (store : StoreBehavior) :
    extract_user_id (some 0) (a :: rest) = .ok a ∧
    wrapper ttl ns func store [] (some 0) = ⟨.error .indexError, 0, []⟩ := by
  constructor
  · simp [extract_user_id, firstArg]
  · simp [wrapper, extract_user_id, firstArg]

/-- C3 counterexample: identifier 0 has no record, yet on the app's
invocation shape (the framework passes the path parameter as the keyword
argument `user_id`) the wrapper raises an `IndexError` — the handler's 404
is not what propagates, and the handler never even runs. -/
theorem C3_counterexample :
    users_db 0 = none ∧
    (wrapper 120 "users" call_get_user_details coldStore [] (some 0)).result =
      .error .indexError ∧
    (wrapper 120 "users" call_get_user_details coldStore [] (some 0)).result ≠
      .error (.httpExc 404 "User not found") ∧
    (wrapper 120 "users" call_get_user_details coldStore [] (some 0)).handlerCalls = 0 := by
  decide

/-- C3 (amended): for every identifier with no existing record, the wrapper
never calls `store.set` (under any store outcome, on both invocation
shapes), and whenever key extraction succeeds — the identifier is nonzero,
or is passed positionally — a cache-miss read lets the handler's
`HTTPException(404, "User not found")` propagate unchanged. -/
theorem C3_amended_not_found_propagates (uid : Int) (store : StoreBehavior)
    (hdb : users_db uid = none) :
    (wrapper 120 "users" call_get_user_details store [] (some uid)).setCalls = [] ∧
    (wrapper 120 "users" call_get_user_details store [uid] none).setCalls = [] ∧
    (uid ≠ 0 → store.getResult = .ok none →
      (wrapper 120 "users" call_get_user_details store [] (some uid)).result =
        .error (.httpExc 404 "User not found")) ∧
    (store.getResult = .ok none →
      (wrapper 120 "users" call_get_user_details store [uid] none).result =
        .error (.httpExc 404 "User not found")) := by
  have hgud : get_user_details uid = .error (.httpExc 404 "User not found") := by
    simp [get_user_details, hdb]
  have hcall1 : call_get_user_details [] (some uid) =
      .error (.httpExc 404 "User not found") := by
    simp [call_get_user_details, hgud]
  have hcall2 : call_get_user_details [uid] none =
      .error (.httpExc 404 "User not found") := by
    simp [call_get_user_details, hgud]
  refine ⟨?_, ?_, ?_, ?_⟩
  · by_cases h0 : uid = 0
    · simp [wrapper, extract_user_id, h0, firstArg]
    · cases hg : store.getResult with
      | error m => simp [wrapper, extract_user_id, h0, hg]
      | ok cached =>
        cases hc : cachedTruthy cached with
        | true =>
          simp only [wrapper, extract_user_id, h0, if_neg h0, hg, hc, if_true]
          cases hl : jsonLoads (cached.getD "") <;> simp [hl]
        | false => simp [wrapper, extract_user_id, h0, hg, hc, hcall1]
  · cases hg : store.getResult with
    | error m => simp [wrapper, extract_user_id, firstArg, hg]
    | ok cached =>
      cases hc : cachedTruthy cached with
      | true =>
        simp only [wrapper, extract_user_id, firstArg, hg, hc, if_true]
        cases hl : jsonLoads (cached.getD "") <;> simp [hl]
      | false => simp [wrapper, extract_user_id, firstArg, hg, hc, hcall2]
  · intro h0 hg
    simp [wrapper, extract_user_id, h0, hg, cachedTruthy, hcall1]
  · intro hg
    simp [wrapper, extract_user_id, firstArg, hg, cachedTruthy, hcall2]

/-- Witness for the amended C3 at a concrete input: identifier 99 on a cold
cache gets the 404 through both invocation shapes and nothing is written. -/
theorem C3_witness :
    (wrapper 120 "users" call_get_user_details coldStore [] (some 99)).setCalls = [] ∧
    (wrapper 120 "users" call_get_user_details coldStore [99] none).setCalls = [] ∧
    (wrapper 120 "users" call_get_user_details coldStore [] (some 99)).result =
      .error (.httpExc 404 "User not found") ∧
    (wrapper 120 "users" call_get_user_details coldStore [99] none).result =
      .error (.httpExc 404 "User not found") := by
  have h := C3_amended_not_found_propagates 99 coldStore (by decide)
  exact ⟨h.1, h.2.1, h.2.2.1 (by decide) rfl, h.2.2.2 rfl⟩

/-- C5 counterexample: with first positional argument 5 present and keyword
argument `user_id = 7`, the identifying value is 7 (the keyword wins), and
the cache key written is built from 7, refuting that the first positional
argument is preferred. -/
theorem C5_counterexample :
    extract_user_id (some 7) [5] = .ok 7 ∧
    extract_user_id (some 7) [5] ≠ .ok 5 ∧
    (wrapper 60 "main" (fun _ _ => .ok (.atom .null)) coldStore [5] (some 7)).setCalls =
      [("main:user:7", "null", 60)] := by
  decide

/-- C5 (amended): the identifying argument is the keyword argument
`user_id` whenever it is present and truthy (nonzero); the first positional
argument is consulted only when the keyword argument is absent or falsy. -/
theorem C5_amended_extraction (v : Int) (args : List Int) (hv : v ≠ 0) :
    extract_user_id (some v) args = .ok v ∧
    extract_user_id none args = firstArg args ∧
    extract_user_id (some 0) args = firstArg args := by
  refine ⟨by simp [extract_user_id, hv], rfl, by simp [extract_user_id]⟩

/-- Witness for the amended C5 at a concrete input. -/
theorem C5_witness :
    extract_user_id (some 7) [5] = .ok 7 ∧
    extract_user_id none [5] = firstArg [5] ∧
    extract_user_id (some 0) [5] = firstArg [5] :=
  C5_amended_extraction 7 [5] (by decide)

/-- C6: on a cold cache, `GET /users/1` answers 200 with Manas's record and
`GET /users/99` answers 404 with detail "User not found". -/
theorem C6_endpoint_concrete_responses :
    http_get_users coldStore 1 =
      (200, .obj [("id", .int 1), ("name", .str "Manas"),
                  ("email", .str "manas@example.com"), ("age", .int 25)]) ∧
    http_get_users coldStore 99 = (404, .obj [("detail", .str "User not found")]) := by
  decide

/-- C7 counterexample: two behaviourally different handlers wrapped with
the same namespace compute the same cache key for the same identifying
argument — the key does not uniquely identify one handler's input. -/
theorem C7_counterexample :
    usersEndpoint ≠ otherEndpoint ∧
    usersEndpoint.handler [] (some 99) ≠ otherEndpoint.handler [] (some 99) ∧
    endpoint_cache_key usersEndpoint 1 = endpoint_cache_key otherEndpoint 1 := by
  refine ⟨?_, by decide, rfl⟩
  intro h
  exact absurd (congrArg (fun e => e.handler [] (some 99)) h) (by decide)

/-- C7 (amended): the cache key is determined by the namespace and the
stringified identifying argument alone — for endpoints sharing a namespace,
keys coincide exactly when the stringified arguments coincide, regardless
of the wrapped handler. -/
theorem C7_amended_key_determined_by_ns_and_arg (e1 e2 : WrappedEndpoint)
    (a1 a2 : Int) (hns : e1.ns = e2.ns) :
    (endpoint_cache_key e1 a1 = endpoint_cache_key e2 a2 ↔
      toString a1 = toString a2) := by
  unfold endpoint_cache_key cache_key
  rw [hns]
  constructor
  · intro h
    have hd := congrArg String.data h
    simp only [String.data_append] at hd
    exact congrArg String.mk (List.append_cancel_left hd)
  · intro h
    rw [h]

/-- Witness for the amended C7 at a concrete input: the two wrapped
endpoints share namespace `users`, and their keys for arguments 1 and 2
differ exactly as the strings "1" and "2" do. -/
theorem C7_witness :
    endpoint_cache_key usersEndpoint 1 = endpoint_cache_key otherEndpoint 2 ↔
      toString (1 : Int) = toString (2 : Int) :=
  C7_amended_key_determined_by_ns_and_arg usersEndpoint otherEndpoint 1 2 rfl

/-- C9: every record the handler can return (the `users_db` entries)
survives the wrapper's serialization round trip: `json.loads` of
`json.dumps` of the record is the record itself, equal in all fields. -/
theorem C9_serialization_roundtrip (uid : Int) (u : Json)
    (h : users_db uid = some u) :
    jsonLoads (jsonDumps u) = some u := by
  by_cases h1 : uid = 1
  · rw [h1] at h; simp [users_db] at h; rw [← h]; decide
  · by_cases h2 : uid = 2
    · rw [h2] at h; simp [users_db] at h; rw [← h]; decide
    · by_cases h3 : uid = 3
      · rw [h3] at h; simp [users_db] at h; rw [← h]; decide
      · simp [users_db, h1, h2, h3] at h

/-- Witness for C9 at a concrete input: user 1's record round-trips. -/
theorem C9_witness : jsonLoads (jsonDumps user1) = some user1 :=
  C9_serialization_roundtrip 1 user1 (by decide)

end ResponseBoost
